import Mathlib

/-!
# Verification of the condynsate real-time coordination layer

This file gives a shallow embedding, in Lean 4, of the concurrency and
lifecycle core of the condynsate repository (the `Project` facade, the
`Visualizer` action buffer and worker loop, the `Animator` recording
finalization, and the `Figure` / `Lineplot` / `Barchart` worker-thread
discipline), and proves or refutes the specification's claims about it.

Each definition is translated directly from the Python source named in its
doc comment.  Machine floats that only ever hold exactly representable
small rationals are modelled by `ℚ`; Python lists by `List`; Python
dictionaries keyed by bound methods by per-method buffers; Python's
dynamic attribute lookup (where a claim hinges on it) by an explicit
method-name table; a raised exception by `Except`.
-/

namespace Condynsate

/-! ## C1: the Visualizer's deduplicating action buffer

`Visualizer.set_transform` (visualizer.py lines 1359-1373) enqueues the
pair `(name, transform)` into the bucket `self._actions_buf[self._set_transforms]`:
if an entry whose first component equals `name` is already present, the
*first* such entry is overwritten with the new pair, otherwise the new
pair is appended at the end (and a missing bucket becomes the singleton
list).  `Visualizer._main_loop` (lines 159-166) pops every bucket and
executes it, leaving the buffer empty.
-/

/-- One bucket of `Visualizer._actions_buf` (the list stored under the
`self._set_transforms` key), with the enqueue step of
`Visualizer.set_transform` lines 1360-1373: replace the first entry whose
name matches, else append. A missing bucket is the empty list, for which
the result is the singleton, matching the `else` branch at line 1373. -/
def enqueueByName {N T : Type} [DecidableEq N] :
    List (N × T) → N → T → List (N × T)
  | [], n, t => [(n, t)]
  | a :: rest, n, t =>
      if a.1 = n then (n, t) :: rest else a :: enqueueByName rest n t

/-- `Visualizer._main_loop` lines 159-166: the drain pops every queued
action out of the shared buffer (leaving it empty) and then executes
exactly the popped actions, in order.  First component: the executed
actions; second: the buffer left behind. -/
def mainLoopDrain {N T : Type} (buf : List (N × T)) :
    List (N × T) × List (N × T) :=
  (buf, [])

/-- A burst of `set_transform` calls applied to an initially empty bucket,
each call enqueueing `(name, transform)` via the replace-or-append step. -/
def applyCalls {N T : Type} [DecidableEq N] (calls : List (N × T)) :
    List (N × T) :=
  calls.foldl (fun b c => enqueueByName b c.1 c.2) []

/-- The most recently enqueued call whose key satisfies `pk`
(`none` when there is no such call). -/
def lastEnqueued {N T : Type} (pk : N × T → Bool) (calls : List (N × T)) :
    Option (N × T) :=
  calls.foldl (fun acc c => if pk c then some c else acc) none

theorem find?_enqueueByName {N T : Type} [DecidableEq N]
    (buf : List (N × T)) (n : N) (t : T) (k : N) :
    (enqueueByName buf n t).find? (fun a => decide (a.1 = k)) =
      if n = k then some (n, t)
      else buf.find? (fun a => decide (a.1 = k)) := by
  induction buf with
  | nil =>
      by_cases h : n = k <;> simp [enqueueByName, List.find?, h]
  | cons a rest ih =>
      rw [enqueueByName]
      by_cases ha : a.1 = n
      · rw [if_pos ha]
        by_cases h : n = k
        · subst h; simp [List.find?]
        · have hak : ¬ a.1 = k := by rw [ha]; exact h
          simp [List.find?, h, hak]
      · rw [if_neg ha]
        by_cases hak : a.1 = k
        · have h : ¬ n = k := by
            intro hnk; exact ha (hak.trans hnk.symm)
          simp [List.find?, hak, h]
        · simp [List.find?, hak, ih]

theorem map_fst_enqueueByName {N T : Type} [DecidableEq N]
    (buf : List (N × T)) (n : N) (t : T) :
    (enqueueByName buf n t).map Prod.fst =
      if n ∈ buf.map Prod.fst then buf.map Prod.fst
      else buf.map Prod.fst ++ [n] := by
  induction buf with
  | nil => simp [enqueueByName]
  | cons a rest ih =>
      by_cases ha : a.1 = n
      · simp [enqueueByName, ha]
      · have : ¬ n = a.1 := fun h => ha h.symm
        by_cases hm : n ∈ rest.map Prod.fst <;>
          simp [enqueueByName, ha, ih, hm, this]

theorem nodup_keys_enqueueByName {N T : Type} [DecidableEq N]
    (buf : List (N × T)) (n : N) (t : T)
    (h : (buf.map Prod.fst).Nodup) :
    ((enqueueByName buf n t).map Prod.fst).Nodup := by
  rw [map_fst_enqueueByName]
  by_cases hm : n ∈ buf.map Prod.fst
  · simpa [hm] using h
  · rw [if_neg hm]
    refine List.Nodup.append h (List.nodup_singleton n) ?_
    intro x hx hx1
    rcases List.mem_singleton.mp hx1 with rfl
    exact hm hx

theorem nodup_keys_applyCalls {N T : Type} [DecidableEq N]
    (calls : List (N × T)) :
    ((applyCalls calls).map Prod.fst).Nodup := by
  suffices h : ∀ (buf : List (N × T)), (buf.map Prod.fst).Nodup →
      ((calls.foldl (fun b c => enqueueByName b c.1 c.2) buf).map
        Prod.fst).Nodup by
    exact h [] (by simp)
  induction calls with
  | nil => intro buf hb; simpa using hb
  | cons c rest ih =>
      intro buf hb
      exact ih _ (nodup_keys_enqueueByName buf c.1 c.2 hb)

theorem find?_foldl_enqueue {N T : Type} [DecidableEq N]
    (calls : List (N × T)) (buf : List (N × T)) (k : N) :
    (calls.foldl (fun b c => enqueueByName b c.1 c.2) buf).find?
        (fun a => decide (a.1 = k)) =
      calls.foldl
        (fun acc c => if (fun a => decide (a.1 = k)) c then some c else acc)
        (buf.find? (fun a => decide (a.1 = k))) := by
  induction calls generalizing buf with
  | nil => rfl
  | cons c rest ih =>
      obtain ⟨c1, c2⟩ := c
      have hstep : (enqueueByName buf c1 c2).find?
          (fun a => decide (a.1 = k)) =
          if decide (c1 = k) = true then some (c1, c2)
          else buf.find? (fun a => decide (a.1 = k)) := by
        rw [find?_enqueueByName]
        by_cases h : c1 = k <;> simp [h]
      simp only [List.foldl_cons, ih, hstep]

/-- C1: after any burst of `set_transform` calls hitting an initially
empty buffer, the drain performed by `Visualizer._main_loop` executes at
most one action per key (the buffer's keys are pairwise distinct), the
surviving action for a key carries the arguments of the most recently
enqueued call for that key, and nothing else is executed (the executed
list is exactly the buffer, and the buffer is left empty). -/
theorem set_transform_dedup_latest_wins {N T : Type} [DecidableEq N]
    (calls : List (N × T)) (k : N) :
    (((mainLoopDrain (applyCalls calls)).1.map Prod.fst).Nodup) ∧
    ((mainLoopDrain (applyCalls calls)).1.find? (fun a => decide (a.1 = k)) =
      lastEnqueued (fun a => decide (a.1 = k)) calls) ∧
    ((mainLoopDrain (applyCalls calls)).2 = []) := by
  refine ⟨nodup_keys_applyCalls calls, ?_, rfl⟩
  show (applyCalls calls).find? (fun a => decide (a.1 = k)) = _
  rw [applyCalls, find?_foldl_enqueue]
  simp [lastEnqueued, List.find?]

/-! ## Subsystem teardown (C2, C7)

`Simulator.terminate` (simulator_v2.py lines 163-176) disconnects the
physics client and returns 0 when it was connected, and returns -1 when
it already was not.  `Visualizer.terminate` (visualizer.py lines
1564-1585) sets the done flag under the lock, joins the worker, clears
the action buffer and object registry, and returns 0 when the meshcat
socket was still open (closing it) and -1 otherwise.
`Animator.terminate` (animator_v2.py lines 534-575) terminates each
subplot and the figure with exceptions swallowed, destroys the windows,
saves the recording only when `record` is set and strictly more than one
frame was captured, resets its locals, and returns 0.
`Project.terminate` (project.py lines 162-173) sums the return codes,
clamps the sum at -1, and nulls the visualizer, animator and keyboard
references — but not the simulator reference.
-/

/-- State of `Simulator` (simulator_v2.py): whether the pybullet client
is connected. -/
structure SimulatorState where
  connected : Bool
deriving DecidableEq

/-- `Simulator.terminate` (simulator_v2.py lines 163-176). -/
def simTerminate (s : SimulatorState) : SimulatorState × Int :=
  if s.connected then (⟨false⟩, 0) else (s, -1)

/-- The sanitized transform dict produced by
`Visualizer._read_transform_kwargs` (visualizer.py lines 1253-1259). -/
structure VisTransform where
  position : ℚ × ℚ × ℚ
  wxyzQuat : ℚ × ℚ × ℚ × ℚ
  yaw : ℚ
  pitch : ℚ
  roll : ℚ
  scale : ℚ × ℚ × ℚ
deriving DecidableEq

/-- State of `Visualizer` (visualizer.py): the done flag, whether the
meshcat zmq socket has closed, the `_set_transforms` bucket of
`_actions_buf` (the other buckets behave identically), and the names in
the `_objects` registry. -/
structure VisualizerState where
  done : Bool
  socketClosed : Bool
  transformBuf : List (String × VisTransform)
  objects : List String
deriving DecidableEq

/-- `Visualizer.terminate` (visualizer.py lines 1564-1585): set done
under the lock, join the worker, clear `_actions_buf` and `_objects`,
then close the socket and return 0 if it was open, else return -1. -/
def visTerminate (v : VisualizerState) : VisualizerState × Int :=
  let v1 : VisualizerState :=
    { done := true, socketClosed := v.socketClosed,
      transformBuf := [], objects := [] }
  if v.socketClosed then (v1, -1)
  else ({ v1 with socketClosed := true }, 0)

/-- Side effects of `Animator.terminate` that are visible outside the
animator (animator_v2.py lines 534-575). -/
inductive AnimEvent where
  | subplotTerminate
  | figureTerminate
  | destroyAllWindows
  | saveRecording
deriving DecidableEq

/-- State of `Animator` (animator_v2.py lines 39-65): the recording flag,
the captured frames with their capture tick counts, the number of
subplots, and the started flag. -/
structure AnimatorState (F : Type) where
  record : Bool
  frames : List F
  frameTimes : List ℚ
  nPlots : ℕ
  started : Bool

/-- `Animator.terminate` (animator_v2.py lines 534-575): terminate every
subplot and the figure (exceptions swallowed by the `try`/`except`
blocks), destroy the windows, save the recording only when `record` is
set and strictly more than one frame was captured, reset the locals, and
return 0. -/
def animTerminate {F : Type} (a : AnimatorState F) :
    AnimatorState F × Int × List AnimEvent :=
  let evs :=
    List.replicate a.nPlots AnimEvent.subplotTerminate ++
    [AnimEvent.figureTerminate, AnimEvent.destroyAllWindows] ++
    (if a.record ∧ 1 < a.frames.length then [AnimEvent.saveRecording]
     else [])
  ({ record := a.record, frames := [], frameTimes := [], nPlots := 0,
     started := false }, 0, evs)

/-- Modelled from the spec: the repository's keyboard module
(`condynsate.keyboard.Keyboard`) is not under src/ (only
project.py and the examples import it).  Per spec §2 and §4.5 each
subsystem exposes an idempotent `terminate()` returning an integer
status; the keyboard only stops its listener thread, which always
succeeds, so its terminate returns 0. -/
structure KeyboardState where
  listening : Bool
deriving DecidableEq

/-- Modelled from the spec: `Keyboard.terminate` stops the listener
thread and reports success. -/
def keyboardTerminate (_ : KeyboardState) : KeyboardState × Int :=
  (⟨false⟩, 0)

/-- State of `Project` (project.py lines 26-48): the required simulator
plus the three optional subsystems (each `None` when not requested). -/
structure ProjectState (F : Type) where
  simulator : SimulatorState
  visualizer : Option VisualizerState
  animator : Option (AnimatorState F)
  keyboard : Option KeyboardState

/-- `Project.terminate` (project.py lines 162-173): call
`simulator.terminate()` (the simulator reference is never nulled), then
terminate and null each present optional subsystem, summing the return
codes, and return `max(-1, ret_code)`. -/
def projectTerminate {F : Type} (p : ProjectState F) :
    ProjectState F × Int :=
  let r0 := simTerminate p.simulator
  let r1 : Int := match p.visualizer with
    | none => 0
    | some v => (visTerminate v).2
  let r2 : Int := match p.animator with
    | none => 0
    | some a => (animTerminate a).2.1
  let r3 : Int := match p.keyboard with
    | none => 0
    | some k => (keyboardTerminate k).2
  ({ simulator := r0.1, visualizer := none, animator := none,
     keyboard := none },
   max (-1) (r0.2 + r1 + r2 + r3))

/-- A `Project` whose construction succeeded: simulator connected, no
optional subsystems requested. -/
def projAllDefault : ProjectState ℕ :=
  { simulator := ⟨true⟩, visualizer := none, animator := none,
    keyboard := none }

/-- C2 counterexample: the first `Project.terminate()` returns success
(0), but because the simulator reference is not nulled the second call
re-runs `Simulator.terminate` on a disconnected client and returns -1 —
not "a no-op returning the same success status". -/
theorem project_terminate_second_call_fails :
    (projectTerminate projAllDefault).2 = 0 ∧
    (projectTerminate (projectTerminate projAllDefault).1).2 = -1 := by
  constructor <;> rfl

/-- C2 amended: `Project.terminate` aggregates by summing the return
codes and clamping at -1, which equals the worst (most negative) code
since every subsystem code is 0 or -1; it nulls the visualizer, animator
and keyboard references but keeps the (terminated) simulator reference;
a second call never raises and leaves the state unchanged, but it
returns -1 (because `Simulator.terminate` on the already-disconnected
client reports failure), not the first call's status. -/
theorem project_terminate_amended {F : Type} (p : ProjectState F) :
    ((projectTerminate p).2 =
      min (simTerminate p.simulator).2
        (min (match p.visualizer with
              | none => 0 | some v => (visTerminate v).2)
          (min (match p.animator with
                | none => 0 | some a => (animTerminate a).2.1)
            (match p.keyboard with
             | none => 0 | some k => (keyboardTerminate k).2)))) ∧
    (projectTerminate p).1.simulator = (simTerminate p.simulator).1 ∧
    (projectTerminate p).1.visualizer = none ∧
    (projectTerminate p).1.animator = none ∧
    (projectTerminate p).1.keyboard = none ∧
    projectTerminate ((projectTerminate p).1) =
      ((projectTerminate p).1, -1) := by
  obtain ⟨⟨sc⟩, vis, anim, kb⟩ := p
  refine ⟨?_, rfl, rfl, rfl, rfl, ?_⟩
  · rcases vis with _ | ⟨vd, vsc, vb, vo⟩
    · rcases anim with _ | a <;> rcases kb with _ | k <;> rcases sc <;>
        simp [projectTerminate, simTerminate, visTerminate,
              animTerminate, keyboardTerminate]
    · rcases vsc <;> rcases anim with _ | a <;> rcases kb with _ | k <;>
        rcases sc <;>
        simp [projectTerminate, simTerminate, visTerminate,
              animTerminate, keyboardTerminate]
  · rcases sc <;>
      simp [projectTerminate, simTerminate]

/-- An animator that is recording but has captured exactly one frame. -/
def animOneFrame : AnimatorState ℕ :=
  { record := true, frames := [7], frameTimes := [100], nPlots := 2,
    started := true }

/-- C7: when zero or one frames were captured, `Animator.terminate`
skips the recording finalization entirely (no save-recording effect, so
no video file is created) and still returns 0 without raising. -/
theorem animator_terminate_skips_short_recording {F : Type}
    (a : AnimatorState F) (h : a.frames.length ≤ 1) :
    AnimEvent.saveRecording ∉ (animTerminate a).2.2 ∧
    (animTerminate a).2.1 = 0 := by
  refine ⟨?_, rfl⟩
  have hlt : ¬ (a.record ∧ 1 < a.frames.length) := by
    rintro ⟨-, hgt⟩; omega
  simp [animTerminate, hlt, AnimEvent.saveRecording]

theorem animator_terminate_skips_short_recording_witness :
    animOneFrame.frames.length ≤ 1 ∧
    (AnimEvent.saveRecording ∉ (animTerminate animOneFrame).2.2 ∧
      (animTerminate animOneFrame).2.1 = 0) :=
  ⟨by decide, animator_terminate_skips_short_recording animOneFrame
    (by decide)⟩

/-! ## Python call semantics (C3, C9, C6)

Three claims hinge on Python's dynamic call semantics: binding keyword
arguments to a function signature (a keyword naming no parameter raises
`TypeError`), and attribute lookup on an object (a name not defined by
the class raises `AttributeError`).  Both are modelled explicitly, with
the signatures and class attribute tables transcribed from the source,
so that the outcome of each call is derived rather than asserted.
-/

/-- A raised Python exception. -/
inductive PyError where
  | typeError (msg : String)
  | attributeError (msg : String)
deriving DecidableEq

/-- Python keyword binding: a keyword-argument call binds successfully
iff every keyword names a declared parameter (none of the functions
involved declare `**kwargs`). -/
def kwargsBind (params kwargs : List String) : Bool :=
  kwargs.all (fun k => params.contains k)

/-- The non-self parameters of `Simulator.step`
(simulator_v2.py line 106: `def step(self, real_time=True):`). -/
def simStepParams : List String := ["real_time"]

/-- The keywords `Project.step` passes to `self.simulator.step`
(project.py lines 105-106). -/
def projectStepKwargs : List String := ["real_time", "stable_step"]

/-- Return code of a bound `Simulator.step` call (simulator_v2.py lines
106-144): -1 when the pybullet client is disconnected (the
`pybullet.error` is caught and warned about), else 0. -/
def simStepRet (s : SimulatorState) : Int :=
  if s.connected then 0 else -1

/-- `Project.step` (project.py lines 104-109): forward
`real_time`/`stable_step` to `self.simulator.step`; on a non-zero sim
return code return -1 without refreshing, else call
`refresh_visualizer` and return 0.  The result carries the return code
and whether `refresh_visualizer` was invoked. -/
def projectStep {F : Type} (p : ProjectState F) :
    Except PyError (Int × Bool) :=
  if kwargsBind simStepParams projectStepKwargs then
    if simStepRet p.simulator ≠ 0 then Except.ok (-1, false)
    else Except.ok (0, true)
  else
    Except.error (PyError.typeError
      "step() got an unexpected keyword argument stable_step")

/-- C3 (code bug): `Project.step` passes `stable_step=` but
`Simulator.step` declares only `real_time`, so every call — on a healthy
simulator as well as a failed one — raises `TypeError` instead of
returning 0 or -1; the short-circuit described by the claim is
unreachable. -/
theorem project_step_always_raises {F : Type} (p : ProjectState F) :
    projectStep p =
      Except.error (PyError.typeError
        "step() got an unexpected keyword argument stable_step") := by
  simp [projectStep, kwargsBind, simStepParams, projectStepKwargs]

/-- The attribute names class `Body` defines (objects.py lines 21-606:
its methods, properties, and the instance attributes set in
`__init__`/`_load_urdf`/`_make_links_joints`).  There is no
`clear_visual_buffer` among them. -/
def bodyAttrs : List String :=
  ["__init__", "_load_urdf", "_make_links_joints", "_get_shape_data",
   "initial_state", "state", "_get_all_link_pos_ori", "center_of_mass",
   "_get_arr_vis_dat", "visual_data", "_state_kwargs_ok",
   "set_initial_state", "set_state", "_get_Obw_Rbw", "apply_force",
   "apply_torque", "reset", "name", "urdf_id", "joints", "links",
   "_client", "_arrows", "_link_data"]

/-- A loaded body, reduced to the state `Project.refresh_visualizer`
touches: the number of staged (non-`None`) entries in its `_arrows`
buffers, which `visual_data` drains (objects.py lines 209-237) and which
grow on every `apply_force`/`apply_torque`. -/
structure BodyState where
  stagedArrows : ℕ
deriving DecidableEq

/-- `Project.refresh_visualizer` (project.py lines 111-124).  With no
visualizer it loops over the bodies calling `body.clear_visual_buffer()`
— an attribute lookup on `Body` — then returns -1; with a visualizer it
iterates each body's `visual_data` (draining the staged arrow buffers)
and forwards to the visualizer, returning 0. -/
def refreshVisualizer (bodies : List BodyState)
    (vis : Option VisualizerState) :
    Except PyError (List BodyState × Int) :=
  match vis with
  | none =>
      match bodies with
      | [] => Except.ok ([], -1)
      | _ :: _ =>
          if bodyAttrs.contains "clear_visual_buffer" then
            Except.ok (bodies.map (fun _ => ⟨0⟩), -1)
          else
            Except.error (PyError.attributeError
              "Body object has no attribute clear_visual_buffer")
  | some _ => Except.ok (bodies.map (fun _ => ⟨0⟩), 0)

/-- C9 (code bug): with no visualizer attached and at least one loaded
body, `Project.refresh_visualizer` raises `AttributeError` (class `Body`
defines no `clear_visual_buffer`), so the staged buffer is not cleared
and no -1 is returned; the claimed graceful path is only taken when
there are zero bodies. -/
theorem refresh_visualizer_no_vis_raises :
    refreshVisualizer [⟨3⟩] none =
      Except.error (PyError.attributeError
        "Body object has no attribute clear_visual_buffer") ∧
    refreshVisualizer [] none = Except.ok ([], -1) := by
  constructor <;> rfl

/-- The attribute names class `Barchart` defines (subplots.py lines
681-1182).  Its redraw entry point is `redraw_chart`; there is no
`redraw_plot`. -/
def barchartAttrs : List String :=
  ["__init__", "__del__", "_apply_kwargs", "_apply_settings_2_axes",
   "_set_axes_extents", "_get_data_range", "_get_l_extent",
   "_get_u_extent", "_make_bar_artists", "_drawer_loop", "set_value",
   "reset_data", "redraw_chart", "_redraw_bar", "terminate",
   "options", "labels", "style", "values", "_LOCK", "_axes", "_bars",
   "_need_redraw", "_THREADED", "_done", "_thread"]

/-- State of a `Barchart` (subplots.py lines 725-770). -/
structure BarchartState where
  values : List ℚ
  needRedraw : List Bool
  threaded : Bool
deriving DecidableEq

/-- `Barchart.redraw_chart` (subplots.py lines 1114-1139): collect the
flagged bar indices under the lock, redraw each (clearing its flag).
Returns the new state and the redrawn indices. -/
def redrawChart (b : BarchartState) : BarchartState × List ℕ :=
  let inds := (List.range b.needRedraw.length).filter
    (fun i => b.needRedraw.getD i false)
  ({ b with
     needRedraw := inds.foldl (fun nr i => nr.set i false) b.needRedraw },
   inds)

/-- `Barchart.set_value` (subplots.py lines 1070-1098): under the lock
set the value and the dirty flag; if unthreaded, synchronously call
`self.redraw_plot()` — an attribute lookup on `Barchart`. -/
def barchartSetValue (b : BarchartState) (value : ℚ) (barInd : ℕ) :
    Except PyError (BarchartState × List ℕ) :=
  let b1 : BarchartState :=
    { b with values := b.values.set barInd value,
             needRedraw := b.needRedraw.set barInd true }
  if b1.threaded then Except.ok (b1, [])
  else if barchartAttrs.contains "redraw_plot" then Except.ok (redrawChart b1)
  else Except.error (PyError.attributeError
    "Barchart object has no attribute redraw_plot")

/-- C6 (code bug): on an unthreaded `Barchart`, `set_value` raises
`AttributeError` (the unthreaded branch calls `self.redraw_plot()`, but
`Barchart` only defines `redraw_chart`), so this mutator neither redraws
nor returns cleanly. -/
theorem barchart_set_value_unthreaded_raises :
    barchartSetValue ⟨[0, 0], [false, false], false⟩ 1 0 =
      Except.error (PyError.attributeError
        "Barchart object has no attribute redraw_plot") := by
  rfl

/-! ## The Lineplot data store (C10, and the Lineplot half of C6)

`Lineplot.__init__` (subplots.py lines 148-149) builds
`self.data = {'x': [[],]*n_lines, 'y': [[],]*n_lines}`.  In Python,
`[[],]*n` replicates the *reference* to a single empty list object, so
all `n` slots of `data['x']` alias one list (and all slots of
`data['y']` alias another).  The model makes the aliasing explicit: a
heap of list objects addressed by index, with the per-line slots holding
addresses.  `append_point` (lines 520-551) mutates the referenced list
in place; `set_data` (lines 567-598) rebinds the slot to a fresh copy.
-/

/-- State of a `Lineplot`: per-line addresses of its x and y data list
objects, the heap of list objects, the per-line dirty flags, and the
threading flag. -/
structure LineplotState where
  xRefs : List ℕ
  yRefs : List ℕ
  heap : List (List ℚ)
  needRedraw : List Bool
  threaded : Bool
deriving DecidableEq

/-- In-place `list.append` on the heap object at `addr`. -/
def heapAppend (heap : List (List ℚ)) (addr : ℕ) (v : ℚ) :
    List (List ℚ) :=
  heap.set addr (heap.getD addr [] ++ [v])

/-- `Lineplot.__init__` lines 148-162: `[[],]*n_lines` makes every x
slot reference the one list object at address 0 and every y slot the one
at address 1; all dirty flags start `False`. -/
def lineplotInit (nLines : ℕ) (threaded : Bool) : LineplotState :=
  { xRefs := List.replicate nLines 0,
    yRefs := List.replicate nLines 1,
    heap := [[], []],
    needRedraw := List.replicate nLines false,
    threaded := threaded }

/-- The x data observed for line `i` (what `_redraw_line` at lines
651-652 reads): the heap object its slot references. -/
def observedX (s : LineplotState) (i : ℕ) : List ℚ :=
  s.heap.getD (s.xRefs.getD i 0) []

/-- The y data observed for line `i`. -/
def observedY (s : LineplotState) (i : ℕ) : List ℚ :=
  s.heap.getD (s.yRefs.getD i 0) []

/-- `Lineplot.redraw_plot` (subplots.py lines 601-627): collect the
flagged line indices under the lock, redraw each (clearing its flag).
Returns the new state and the redrawn indices. -/
def redrawPlot (s : LineplotState) : LineplotState × List ℕ :=
  let inds := (List.range s.needRedraw.length).filter
    (fun i => s.needRedraw.getD i false)
  ({ s with
     needRedraw := inds.foldl (fun nr i => nr.set i false) s.needRedraw },
   inds)

/-- `Lineplot.append_point` (subplots.py lines 520-551): under the lock,
append the point to the list objects referenced by line `lineInd`'s
slots and set line `lineInd`'s dirty flag; then, if unthreaded,
synchronously call `redraw_plot` (which `Lineplot` does define). -/
def lineplotAppendPoint (s : LineplotState) (x y : ℚ) (lineInd : ℕ) :
    LineplotState × List ℕ :=
  let s1 : LineplotState :=
    { s with
      heap := heapAppend (heapAppend s.heap (s.xRefs.getD lineInd 0) x)
        (s.yRefs.getD lineInd 0) y,
      needRedraw := s.needRedraw.set lineInd true }
  if s1.threaded then (s1, []) else redrawPlot s1

/-- `Lineplot.set_data` (subplots.py lines 567-598): under the lock,
rebind line `lineInd`'s slots to fresh copies of the given data (new
heap objects) and set its dirty flag; then, if unthreaded, synchronously
call `redraw_plot`. -/
def lineplotSetData (s : LineplotState) (xs ys : List ℚ) (lineInd : ℕ) :
    LineplotState × List ℕ :=
  let s1 : LineplotState :=
    { s with
      heap := s.heap ++ [xs, ys],
      xRefs := s.xRefs.set lineInd s.heap.length,
      yRefs := s.yRefs.set lineInd (s.heap.length + 1),
      needRedraw := s.needRedraw.set lineInd true }
  if s1.threaded then (s1, []) else redrawPlot s1

/-- The state of a freshly constructed threaded `Lineplot` after one
`append_point(x, y, line_ind=i)` call. -/
def lineplotAfterAppend (n : ℕ) (x y : ℚ) (i : ℕ) : LineplotState :=
  (lineplotAppendPoint (lineplotInit n true) x y i).1

/-- C10: in a freshly constructed `Lineplot` with `n_lines ≥ 2`, every
line's x slot references the same single list object (likewise y), so
`append_point(x, y, line_ind=i)` appends the point to the x and y data
observed for *every* line index `j`, while setting only line `i`'s dirty
flag. -/
theorem lineplot_shared_data_aliasing (n : ℕ) (i j : ℕ) (x y : ℚ)
    (_hn : 2 ≤ n) (hi : i < n) (hj : j < n) :
    ((lineplotInit n true).xRefs.getD i 0 =
      (lineplotInit n true).xRefs.getD j 0) ∧
    ((lineplotInit n true).yRefs.getD i 0 =
      (lineplotInit n true).yRefs.getD j 0) ∧
    (observedX (lineplotAfterAppend n x y i) j = [x]) ∧
    (observedY (lineplotAfterAppend n x y i) j = [y]) ∧
    ((lineplotAfterAppend n x y i).needRedraw =
      (List.replicate n false).set i true) := by
  have hrep : ∀ (m : ℕ) (a k : ℕ), k < m →
      (List.replicate m a).getD k 0 = a := by
    intro m a k hk
    rw [List.getD_eq_getElem?_getD, List.getElem?_replicate, if_pos hk]
    rfl
  refine ⟨?_, ?_, ?_, ?_, ?_⟩
  · simp only [lineplotInit]
    rw [hrep n 0 i hi, hrep n 0 j hj]
  · simp only [lineplotInit]
    rw [hrep n 1 i hi, hrep n 1 j hj]
  · simp only [lineplotAfterAppend, lineplotAppendPoint, lineplotInit,
      observedX, heapAppend, if_pos]
    rw [hrep n 0 i hi, hrep n 1 i hi, hrep n 0 j hj]
    rfl
  · simp only [lineplotAfterAppend, lineplotAppendPoint, lineplotInit,
      observedY, heapAppend, if_pos]
    rw [hrep n 0 i hi, hrep n 1 i hi, hrep n 1 j hj]
    rfl
  · simp only [lineplotAfterAppend, lineplotAppendPoint, lineplotInit,
      if_pos]

/-- On an unthreaded `Lineplot`, the mutators `append_point` and
`set_data` synchronously redraw the mutated artist before returning
(line `i`'s index is among the redrawn ones) and do not raise — the
`Lineplot` half of the C6 claim, which fails only for `Barchart`. -/
theorem lineplot_unthreaded_mutators_redraw (s : LineplotState)
    (i : ℕ) (x y : ℚ) (xs ys : List ℚ)
    (hth : s.threaded = false) (hi : i < s.needRedraw.length) :
    i ∈ (lineplotAppendPoint s x y i).2 ∧
    i ∈ (lineplotSetData s xs ys i).2 := by
  have hmem : ∀ (nr : List Bool), i < nr.length →
      i ∈ (List.range nr.length).filter
        (fun k => (nr.set i true).getD k false) := by
    intro nr hlen
    rw [List.mem_filter]
    refine ⟨List.mem_range.mpr hlen, ?_⟩
    rw [List.getD_eq_getElem?_getD, List.getElem?_set_self
      (by simpa using hlen)]
    rfl
  constructor
  · simp only [lineplotAppendPoint, hth, if_neg, redrawPlot]
    simpa using hmem s.needRedraw hi
  · simp only [lineplotSetData, hth, if_neg, redrawPlot]
    simpa using hmem s.needRedraw hi

theorem lineplot_unthreaded_mutators_redraw_witness :
    ((lineplotInit 2 false).threaded = false ∧
      0 < (lineplotInit 2 false).needRedraw.length) ∧
    (0 ∈ (lineplotAppendPoint (lineplotInit 2 false) 3 4 0).2 ∧
      0 ∈ (lineplotSetData (lineplotInit 2 false) [3] [4] 0).2) :=
  ⟨⟨rfl, by decide⟩,
    lineplot_unthreaded_mutators_redraw (lineplotInit 2 false) 0 3 4 [3] [4]
      rfl (by decide)⟩

theorem lineplot_shared_data_aliasing_witness :
    (2 ≤ 2 ∧ 0 < 2 ∧ 1 < 2) ∧
    (((lineplotInit 2 true).xRefs.getD 0 0 =
        (lineplotInit 2 true).xRefs.getD 1 0) ∧
      ((lineplotInit 2 true).yRefs.getD 0 0 =
        (lineplotInit 2 true).yRefs.getD 1 0) ∧
      (observedX (lineplotAfterAppend 2 3 4 0) 1 = [3]) ∧
      (observedY (lineplotAfterAppend 2 3 4 0) 1 = [4]) ∧
      ((lineplotAfterAppend 2 3 4 0).needRedraw =
        (List.replicate 2 false).set 0 true)) :=
  ⟨⟨by decide, by decide, by decide⟩,
    lineplot_shared_data_aliasing 2 0 1 3 4 (by decide) (by decide)
      (by decide)⟩

/-! ## Worker-thread lifecycle discipline (C5)

Four classes own a worker thread: `Figure` (figure.py, when
`threaded=True`), `Lineplot` and `Barchart` (subplots.py, when
`threaded=True`), and `Visualizer` (visualizer.py, always).  Their
terminate methods and loop bodies are straight-line except for a few
boolean branches, so each is embedded as the trace of lock/flag/thread
events it emits, as a function of the branch conditions.  The done flag
is only ever written by these traces; a write event records the value
written, so "the flag transitions only False→True" is "every write
writes `true`", and "only under the lock" is checked against the
acquire/release nesting of the same trace.
-/

/-- Lock, flag, and thread events emitted by the worker-owning classes. -/
inductive LockEv where
  | acq
  | rel
  | wrDone (b : Bool)
  | joinThread
  | sleepEv
  | redrawEv
  | execActions
  | popActions
  | clearBuffers
  | closeSocket
deriving DecidableEq

/-- `Figure.terminate` (figure.py lines 228-241): when threaded, set the
done flag under the lock, then join the drawer thread; when unthreaded
there is no thread and the body does nothing. -/
def figureTerminateTrace (threaded : Bool) : List LockEv :=
  if threaded then
    [LockEv.acq, LockEv.wrDone true, LockEv.rel, LockEv.joinThread]
  else []

/-- `Lineplot.terminate` (subplots.py lines 662-675): identical shape to
`Figure.terminate`. -/
def lineplotTerminateTrace (threaded : Bool) : List LockEv :=
  if threaded then
    [LockEv.acq, LockEv.wrDone true, LockEv.rel, LockEv.joinThread]
  else []

/-- `Barchart.terminate` (subplots.py lines 1169-1182): identical shape
to `Figure.terminate`. -/
def barchartTerminateTrace (threaded : Bool) : List LockEv :=
  if threaded then
    [LockEv.acq, LockEv.wrDone true, LockEv.rel, LockEv.joinThread]
  else []

/-- `Visualizer.terminate` (visualizer.py lines 1564-1585): set the done
flag under the lock, join the main-loop thread, clear the buffers, and
close the socket when it is still open. -/
def visualizerTerminateTrace (socketClosed : Bool) : List LockEv :=
  [LockEv.acq, LockEv.wrDone true, LockEv.rel, LockEv.joinThread,
   LockEv.clearBuffers] ++
  (if socketClosed then [] else [LockEv.closeSocket])

/-- One iteration of `Visualizer._main_loop` (visualizer.py lines
131-172), as a function of the branch conditions it reads: not yet frame
time → sleep and re-poll; socket unexpectedly closed → set the done flag
(still holding the lock) and exit; done observed → execute the remaining
actions inside the lock and exit; otherwise pop the buffer under the
lock, execute outside it, and sleep. -/
def visMainLoopIter (socketClosed done framePassed : Bool) :
    List LockEv :=
  if ¬ framePassed then [LockEv.sleepEv]
  else if socketClosed then [LockEv.acq, LockEv.wrDone true, LockEv.rel]
  else if done then [LockEv.acq, LockEv.execActions, LockEv.rel]
  else [LockEv.acq, LockEv.popActions, LockEv.rel, LockEv.execActions,
    LockEv.sleepEv]

/-- One iteration of the drawer loops (`Figure._drawer_loop` figure.py
lines 124-146, `Lineplot._drawer_loop` subplots.py lines 495-517,
`Barchart._drawer_loop` subplots.py lines 1045-1067): redraw, read the
done flag under the lock, and either exit or sleep and continue. -/
def drawerLoopIter (done : Bool) : List LockEv :=
  [LockEv.redrawEv, LockEv.acq, LockEv.rel] ++
  (if done then [] else [LockEv.sleepEv])

/-- Scan a trace with the current lock depth: every done-flag write must
write `true` (so the flag transitions only from `False` to `True`) and
must occur while the lock is held. -/
def doneWritesLockedAux : List LockEv → ℕ → Bool
  | [], _ => true
  | LockEv.acq :: r, d => doneWritesLockedAux r (d + 1)
  | LockEv.rel :: r, d => doneWritesLockedAux r (d - 1)
  | LockEv.wrDone b :: r, d =>
      b && decide (0 < d) && doneWritesLockedAux r d
  | _ :: r, d => doneWritesLockedAux r d

/-- A trace whose done-flag writes are all `true` and all under the
lock. -/
def doneWritesLocked (tr : List LockEv) : Bool :=
  doneWritesLockedAux tr 0

/-- C5: for every worker-owning object (`Figure`, `Lineplot`, `Barchart`
with `threaded=True`, and `Visualizer`), every write to the done flag —
in `terminate` and in every loop iteration, under all branch conditions
— writes `true` (so the flag only transitions False→True) and happens
while holding that object's lock; and each `terminate` on a threaded
object joins the worker thread before returning (the join event is in
its trace, after the flag write). -/
theorem worker_done_flag_discipline (sc dn fp th : Bool) :
    (doneWritesLocked (figureTerminateTrace th) = true ∧
     doneWritesLocked (lineplotTerminateTrace th) = true ∧
     doneWritesLocked (barchartTerminateTrace th) = true ∧
     doneWritesLocked (visualizerTerminateTrace sc) = true ∧
     doneWritesLocked (visMainLoopIter sc dn fp) = true ∧
     doneWritesLocked (drawerLoopIter dn) = true) ∧
    (LockEv.joinThread ∈ figureTerminateTrace true ∧
     LockEv.joinThread ∈ lineplotTerminateTrace true ∧
     LockEv.joinThread ∈ barchartTerminateTrace true ∧
     LockEv.joinThread ∈ visualizerTerminateTrace sc) := by
  rcases sc <;> rcases dn <;> rcases fp <;> rcases th <;> decide

/-! ## Recording finalization (C4, C8)

`Animator._get_fps_and_frames` (animator_v2.py lines 1063-1106) converts
the irregularly captured frames into a constant-rate sequence: normalize
capture times to seconds from the first capture; pick the output fps
from the minimum inter-capture gap, rounded up to a multiple of 5 and
clipped to [20, 120] by `np.clip`; lay out output timestamps with
`np.arange`; assign each captured frame to the output timestep *nearest*
its capture time (`np.argmin(abs(t - vid_frame_times))`); and fill
unassigned timesteps by repeating the previous frame.  All arithmetic on
the inputs of interest is exact, so floats are modelled by `ℚ`;
`np.abs`, `np.clip` and Python's `min`/`max` are modelled by their
defining case splits.
-/

/-- `np.abs` on an exact rational. -/
def npAbs (x : ℚ) : ℚ := if x < 0 then -x else x

/-- Python's two-argument `min` (ties keep the first argument). -/
def pyMin (a b : ℚ) : ℚ := if b < a then b else a

/-- Python's two-argument `max` (ties keep the first argument). -/
def pyMax (a b : ℚ) : ℚ := if a < b then b else a

/-- `np.clip(x, lo, hi)` for `lo ≤ hi`. -/
def npClip (x lo hi : ℚ) : ℚ :=
  if x < lo then lo else if hi < x then hi else x

/-- `np.arange(start, stop, step)` for a positive step: the
`⌈(stop-start)/step⌉` values `start + k*step`. -/
def npArange (start stop step : ℚ) : List ℚ :=
  (List.range (⌈(stop - start) / step⌉).toNat).map
    (fun k => start + k * step)

/-- Accumulator loop of `np.argmin`: current best value, next index,
current best index. -/
def argminAux : List ℚ → ℚ → ℕ → ℕ → ℕ
  | [], _, _, best => best
  | v :: r, bv, i, best =>
      if v < bv then argminAux r v (i + 1) i
      else argminAux r bv (i + 1) best

/-- `np.argmin` on a list: index of the first occurrence of the minimum
(0 on the empty list, where numpy raises). -/
def argminList : List ℚ → ℕ
  | [] => 0
  | v :: r => argminAux r v 1 0

/-- `np.diff`: consecutive differences. -/
def diffs (l : List ℚ) : List ℚ :=
  (l.zip l.tail).map (fun p => p.2 - p.1)

/-- `min(np.diff(l))` (0 on fewer than two samples, where Python's `min`
raises; the caller at animator_v2.py line 563 guarantees at least two
frames). -/
def minDiff (l : List ℚ) : ℚ :=
  match diffs l with
  | [] => 0
  | d :: ds => ds.foldl pyMin d

/-- Python's `max` over a list (0 on the empty list, where it raises). -/
def pyListMax : List ℚ → ℚ
  | [] => 0
  | x :: r => r.foldl pyMax x

/-- Lines 1077-1079: capture times in seconds relative to the first
capture. -/
def capTimes (frameTimes : List ℚ) (tickFreq : ℚ) : List ℚ :=
  let c := frameTimes.map (· / tickFreq)
  c.map (· - c.headD 0)

/-- Lines 1081-1085: `vid_fps = np.clip(np.ceil((1/min_dt)/5)*5, 20, 120)`. -/
def vidFps (capT : List ℚ) : ℚ :=
  npClip (((⌈(1 / minDiff capT) / 5⌉ : ℤ) : ℚ) * 5) 20 120

/-- Line 1088: the output frame timestamps
`np.arange(0, max(cap_t), 1/vid_fps)`. -/
def vidFrameTimes (frameTimes : List ℚ) (tickFreq : ℚ) : List ℚ :=
  npArange 0 (pyListMax (capTimes frameTimes tickFreq))
    (1 / vidFps (capTimes frameTimes tickFreq))

/-- Line 1091: each capture's nearest output slot,
`np.argmin(abs(t - vid_frame_times))`. -/
def capIdxs (frameTimes : List ℚ) (tickFreq : ℚ) : List ℕ :=
  (capTimes frameTimes tickFreq).map
    (fun t => argminList ((vidFrameTimes frameTimes tickFreq).map
      (fun v => npAbs (t - v))))

/-- Lines 1096-1098: write each captured frame into its nearest output
slot (later captures overwrite earlier ones mapped to the same slot). -/
def assignedSlots {F : Type} (frames : List F) (frameTimes : List ℚ)
    (tickFreq : ℚ) : List (Option F) :=
  ((capIdxs frameTimes tickFreq).zip frames).foldl
    (fun acc p => acc.set p.1 (some p.2))
    (List.replicate (vidFrameTimes frameTimes tickFreq).length none)

/-- Lines 1099-1104: fill each unassigned slot with the previous known
frame, starting from `vid_frames[0]`. -/
def fillHold {F : Type} : List (Option F) → Option F → List (Option F)
  | [], _ => []
  | none :: r, prev => prev :: fillHold r prev
  | some v :: r, _ => some v :: fillHold r (some v)

/-- `Animator._get_fps_and_frames` (animator_v2.py lines 1063-1106):
the chosen output fps and the constant-rate output frame sequence. -/
def getFpsAndFrames {F : Type} (frames : List F) (frameTimes : List ℚ)
    (tickFreq : ℚ) : ℚ × List (Option F) :=
  (vidFps (capTimes frameTimes tickFreq),
   fillHold (assignedSlots frames frameTimes tickFreq)
     ((assignedSlots frames frameTimes tickFreq).headD none))

theorem capTimes_ex : capTimes [0, 37] 100 = [0, 37/100] := by
  norm_num [capTimes]

theorem minDiff_ex : minDiff [0, (37:ℚ)/100] = 37/100 := by
  norm_num [minDiff, diffs]

theorem vidFps_ex : vidFps [0, (37:ℚ)/100] = 20 := by
  have hceil : (⌈((1:ℚ) / ((37:ℚ)/100)) / 5⌉ : ℤ) = 1 := by
    rw [Int.ceil_eq_iff]
    norm_num
  unfold vidFps
  rw [minDiff_ex, hceil]
  norm_num [npClip]

theorem pyListMax_ex : pyListMax [0, (37:ℚ)/100] = 37/100 := by
  norm_num [pyListMax, pyMax]

theorem vidFrameTimes_ex : vidFrameTimes [0, 37] 100 =
    [0, 1/20, 2/20, 3/20, 4/20, 5/20, 6/20, 7/20] := by
  unfold vidFrameTimes
  rw [capTimes_ex, pyListMax_ex, vidFps_ex]
  have h8 : (⌈((37:ℚ)/100 - 0) / (1/20)⌉).toNat = 8 := by
    have h : (⌈((37:ℚ)/100 - 0) / (1/20)⌉) = 8 := by
      rw [Int.ceil_eq_iff]
      norm_num
    rw [h]
    rfl
  unfold npArange
  rw [h8]
  norm_num [List.range_succ]

theorem capIdxs_ex : capIdxs [0, 37] 100 = [0, 7] := by
  unfold capIdxs
  rw [capTimes_ex, vidFrameTimes_ex]
  norm_num [argminList, argminAux, npAbs]

theorem assignedSlots_ex : assignedSlots [(0:ℕ), 1] [0, 37] 100 =
    [some 0, none, none, none, none, none, none, some 1] := by
  unfold assignedSlots
  rw [capIdxs_ex, vidFrameTimes_ex]
  norm_num [List.replicate, List.set]

/-- C4 counterexample: for the capture series
`[(frameA, t=0.0), (frameB, t=0.37)]` (tick frequency 100, tick counts 0
and 37, frameA = 0, frameB = 1) the code picks 20 fps, lays out eight
output frames at t = 0, 0.05, ..., 0.35, and assigns frameB to the slot
nearest t = 0.37 — the one at t = 0.35.  The output frame with timestamp
7/20 = 0.35 < 0.37 therefore shows frameB, refuting the claim that no
output frame with timestamp earlier than t = 0.37 shows frameB (and
refuting at-or-before zero-order hold: the most recent capture at or
before t = 0.35 is frameA). -/
theorem zoh_nearest_assignment_counterexample :
    vidFrameTimes [0, 37] 100 =
      [0, 1/20, 2/20, 3/20, 4/20, 5/20, 6/20, 7/20] ∧
    (getFpsAndFrames [(0 : ℕ), 1] [0, 37] 100).2 =
      [some 0, some 0, some 0, some 0, some 0, some 0, some 0, some 1] ∧
    ((7 : ℚ) / 20) < 37 / 100 := by
  refine ⟨vidFrameTimes_ex, ?_, by norm_num⟩
  show fillHold (assignedSlots [(0 : ℕ), 1] [0, 37] 100)
      ((assignedSlots [(0 : ℕ), 1] [0, 37] 100).headD none) = _
  rw [assignedSlots_ex]
  rfl

/-- The most recent known frame among a prefix of assigned slots, seeded
with `prev`. -/
def lastKnown {F : Type} (prev : Option F) (l : List (Option F)) :
    Option F :=
  l.foldl (fun acc x => match x with | some v => some v | none => acc)
    prev

theorem fillHold_length {F : Type} (l : List (Option F))
    (prev : Option F) : (fillHold l prev).length = l.length := by
  induction l generalizing prev with
  | nil => rfl
  | cons hd tl ih => cases hd <;> simp [fillHold, ih]

theorem fillHold_get?_lastKnown {F : Type} (l : List (Option F))
    (prev : Option F) (i : ℕ) (hi : i < l.length) :
    (fillHold l prev).get? i = some (lastKnown prev (l.take (i + 1))) := by
  induction l generalizing prev i with
  | nil => simp at hi
  | cons hd tl ih =>
      cases hd with
      | none =>
          cases i with
          | zero => simp [fillHold, lastKnown]
          | succ m =>
              have hm : m < tl.length := by simpa using hi
              simp only [fillHold, List.get?_cons_succ, List.take_succ_cons]
              rw [ih prev m hm]
              rfl
      | some v =>
          cases i with
          | zero => simp [fillHold, lastKnown]
          | succ m =>
              have hm : m < tl.length := by simpa using hi
              simp only [fillHold, List.get?_cons_succ, List.take_succ_cons]
              rw [ih (some v) m hm]
              rfl

/-- C4 amended: the finalized output satisfies zero-order hold over
*assigned slots*, not capture times: each captured frame is assigned to
the output timestep nearest its capture time (so it can appear up to
half an output interval before it was captured), and every output frame
equals the most recently assigned frame at or before its own slot
(seeded with slot 0's content). -/
theorem get_fps_and_frames_zoh_over_slots {F : Type} (frames : List F)
    (frameTimes : List ℚ) (tickFreq : ℚ) (i : ℕ) :
    (getFpsAndFrames frames frameTimes tickFreq).2.get? i =
      if i < (assignedSlots frames frameTimes tickFreq).length
      then some (lastKnown
        ((assignedSlots frames frameTimes tickFreq).headD none)
        ((assignedSlots frames frameTimes tickFreq).take (i + 1)))
      else none := by
  by_cases h : i < (assignedSlots frames frameTimes tickFreq).length
  · rw [if_pos h]
    exact fillHold_get?_lastKnown _ _ i h
  · rw [if_neg h]
    show (fillHold _ _).get? i = none
    rw [List.get?_eq_none]
    rw [fillHold_length]
    omega

/-- The frame-rate heuristic as the spec words it: the reciprocal of the
minimum inter-capture gap (in seconds), rounded up to the nearest
multiple of 5 and clipped to the interval [20, 120].  This definition
follows the spec's words, for comparison against `vidFps`, which follows
the code. -/
def specFps (capSeconds : List ℚ) : ℚ :=
  min 120 (max 20 (((⌈(1 / minDiff capSeconds) / 5⌉ : ℤ) : ℚ) * 5))

theorem diffs_shift (l : List ℚ) (c : ℚ) :
    diffs (l.map (· - c)) = diffs l := by
  induction l with
  | nil => rfl
  | cons a t ih =>
      cases t with
      | nil => rfl
      | cons b t2 =>
          have h1 : diffs ((a :: b :: t2).map (· - c)) =
              (b - c - (a - c)) :: diffs ((b :: t2).map (· - c)) := rfl
          have h2 : diffs (a :: b :: t2) = (b - a) :: diffs (b :: t2) := rfl
          rw [h1, h2, ih]
          congr 1
          ring

theorem minDiff_shift (l : List ℚ) (c : ℚ) :
    minDiff (l.map (· - c)) = minDiff l := by
  unfold minDiff
  rw [diffs_shift]

theorem npClip_eq_min_max (x : ℚ) :
    npClip x 20 120 = min 120 (max 20 x) := by
  unfold npClip
  by_cases h1 : x < 20
  · rw [if_pos h1, max_eq_left h1.le,
      min_eq_right (by norm_num : (20:ℚ) ≤ 120)]
  · rw [if_neg h1]
    by_cases h2 : (120:ℚ) < x
    · rw [if_pos h2, max_eq_right (le_of_not_lt h1), min_eq_left h2.le]
    · rw [if_neg h2, max_eq_right (le_of_not_lt h1),
        min_eq_right (le_of_not_lt h2)]

/-- C8: the output frame rate chosen by `_get_fps_and_frames` equals
1/(minimum inter-capture gap in seconds) rounded up to the nearest
multiple of 5 and clipped to [20, 120] (normalizing capture times to
time-since-first-capture does not change the gaps), and it is always a
multiple of 5 lying between 20 and 120 inclusive. -/
theorem vid_fps_matches_spec_heuristic (frameTimes : List ℚ)
    (tickFreq : ℚ) (_hlen : 2 ≤ frameTimes.length) :
    vidFps (capTimes frameTimes tickFreq) =
      specFps (frameTimes.map (· / tickFreq)) ∧
    (∃ k : ℤ, vidFps (capTimes frameTimes tickFreq) = 5 * k) ∧
    20 ≤ vidFps (capTimes frameTimes tickFreq) ∧
    vidFps (capTimes frameTimes tickFreq) ≤ 120 := by
  have hshift : minDiff (capTimes frameTimes tickFreq) =
      minDiff (frameTimes.map (· / tickFreq)) := by
    unfold capTimes
    exact minDiff_shift _ _
  have key : ∀ (c : ℤ),
      (∃ k : ℤ, npClip ((c : ℚ) * 5) 20 120 = 5 * (k : ℚ)) ∧
      20 ≤ npClip ((c : ℚ) * 5) 20 120 ∧
      npClip ((c : ℚ) * 5) 20 120 ≤ 120 := by
    intro c
    rw [npClip_eq_min_max]
    refine ⟨?_, le_min (by norm_num) (le_max_left _ _), min_le_left _ _⟩
    rcases le_total ((c : ℚ) * 5) 20 with h1 | h1
    · exact ⟨4, by
        rw [max_eq_left h1, min_eq_right (by norm_num : (20:ℚ) ≤ 120)]
        norm_num⟩
    · rcases le_total ((c : ℚ) * 5) 120 with h2 | h2
      · exact ⟨c, by rw [max_eq_right h1, min_eq_right h2]; ring⟩
      · exact ⟨24, by rw [max_eq_right h1, min_eq_left h2]; norm_num⟩
  refine ⟨?_, (key _).1, (key _).2.1, (key _).2.2⟩
  unfold vidFps specFps
  rw [hshift]
  exact npClip_eq_min_max _

theorem vid_fps_matches_spec_heuristic_witness :
    (2 ≤ ([0, 37] : List ℚ).length) ∧
    (vidFps (capTimes [0, 37] 100) =
        specFps (([0, 37] : List ℚ).map (· / 100)) ∧
      (∃ k : ℤ, vidFps (capTimes [0, 37] 100) = 5 * k) ∧
      20 ≤ vidFps (capTimes [0, 37] 100) ∧
      vidFps (capTimes [0, 37] 100) ≤ 120) :=
  ⟨by decide, vid_fps_matches_spec_heuristic [0, 37] 100 (by decide)⟩

end Condynsate
